import Mathlib

/-!
Verification of the temi_backend navigation core.

The planner (`app/utils/pathfinding.py`, class `PathFinder`) is embedded over
the reals: Python floats become `ℝ`, `math.sqrt` becomes `Real.sqrt`,
`int(r)` on a nonnegative float becomes `(⌊r⌋).toNat`.  The session layer
(`app/services/navigation_service.py`, `app/api/navigation.py`,
`app/models/navigation.py`) is embedded as plain data: the status enum, the
status-token normalization of the progress endpoint, the record written by
`_create_navigation_session`, and the error-message-to-HTTP-status mapping of
the status endpoint.  `NavigationService.update_navigation_progress` is called
by the API layer but is absent from the service module, so the progress
estimator is modelled from the spec (section 4.2); those definitions say so in
their doc comments.
-/

/-- A 2D coordinate in meters (`app/models/navigation.py`, class `Coordinate`). -/
structure Coordinate where
  x : ℝ
  y : ℝ

instance : Inhabited Coordinate := ⟨⟨0, 0⟩⟩

theorem Coordinate.ext_xy {a b : Coordinate} (hx : a.x = b.x) (hy : a.y = b.y) : a = b := by
  cases a; cases b; cases hx; cases hy; rfl

/-- Embedding of `PathFinder.__init__`: it stores `(width, height)` and an obstacle list.  The
obstacles are opaque dicts that no planner code ever inspects (the collision
loop in `is_valid_coordinate` is an empty TODO), so the embedding is
parametric in their type. -/
structure PathFinder (Obstacle : Type) where
  width : ℝ
  height : ℝ
  obstacles : List Obstacle

namespace PathFinder

/-- Embedding of `PathFinder._distance`: Euclidean distance between two coordinates. -/
noncomputable def distance (a b : Coordinate) : ℝ :=
  Real.sqrt ((b.x - a.x) ^ 2 + (b.y - a.y) ^ 2)

/-- The waypoint count of `_calculate_simple_path`:
`num_waypoints = max(1, int(distance / 2.0))`. -/
noncomputable def num_waypoints (s e : Coordinate) : ℕ :=
  max 1 (⌊distance s e / 2⌋).toNat

/-- The interpolated point appended at loop index `i` of
`_calculate_simple_path`: `start + (end - start) * (i / num_waypoints)`
componentwise. -/
noncomputable def interp_point (s e : Coordinate) (n : ℕ) (i : ℕ) : Coordinate :=
  ⟨s.x + (e.x - s.x) * ((i : ℝ) / (n : ℝ)), s.y + (e.y - s.y) * ((i : ℝ) / (n : ℝ))⟩

/-- Embedding of `PathFinder._calculate_simple_path`: `[start]`, then one interpolated
point for each `i in range(1, num_waypoints)`, then `[end]`. -/
noncomputable def calculate_simple_path (s e : Coordinate) : List Coordinate :=
  s :: (List.range' 1 (num_waypoints s e - 1)).map (interp_point s e (num_waypoints s e)) ++ [e]

/-- Embedding of `PathFinder._calculate_total_distance`: the sum over consecutive pairs of
the path of their Euclidean distance. -/
noncomputable def calculate_total_distance : List Coordinate → ℝ
  | a :: b :: rest => distance a b + calculate_total_distance (b :: rest)
  | _ => 0

/-- Embedding of `PathFinder.calculate_path`: builds the simple path, totals its segment
lengths, and divides by the speed when the speed is positive
(`time = distance / speed if speed > 0 else 0`).  Returns
`(path, total_distance, estimated_time)`.  No field of the `PathFinder`
instance is consulted. -/
noncomputable def calculate_path {O : Type} (_pf : PathFinder O) (s e : Coordinate)
    (speed : ℝ) : List Coordinate × ℝ × ℝ :=
  let path := calculate_simple_path s e
  let d := calculate_total_distance path
  (path, d, if 0 < speed then d / speed else 0)

/-- Embedding of `PathFinder.is_valid_coordinate`: true exactly when the coordinate lies in
`[0, width] × [0, height]` (the obstacle loop in the source is an empty
TODO and never rejects anything). -/
def is_valid_coordinate {O : Type} (pf : PathFinder O) (c : Coordinate) : Prop :=
  0 ≤ c.x ∧ c.x ≤ pf.width ∧ 0 ≤ c.y ∧ c.y ≤ pf.height

end PathFinder

/-- The constant `NavigationService.default_temi_speed = 0.8` m/s, also the default of the
`speed` parameter of `PathFinder.calculate_path`. -/
noncomputable def default_temi_speed : ℝ := 0.8

/-- The `PathFinder` the service constructs from its hard-coded default store
layout: `grid_size = (50, 40)`, `obstacles = []`
(`NavigationService.__init__` with `_get_default_store_layout`). -/
noncomputable def default_path_finder : PathFinder Unit :=
  { width := 50, height := 40, obstacles := [] }

/-- Spec wording (section 8): the sum of the Euclidean lengths of consecutive
waypoints of a list, written as a fold over adjacent pairs.  Compared against
`PathFinder.calculate_total_distance`. -/
noncomputable def segment_length_sum (path : List Coordinate) : ℝ :=
  ((path.zip path.tail).map (fun p => PathFinder.distance p.1 p.2)).sum

/-- Spec wording for the refinement claim: straight-line interpolation with
`n + 1` evenly spaced points from `s` to `e`. -/
noncomputable def straight_line_path (s e : Coordinate) (n : ℕ) : List Coordinate :=
  (List.range (n + 1)).map (PathFinder.interp_point s e n)

namespace PathFinder

theorem calculate_total_distance_eq_segment_sum (path : List Coordinate) :
    calculate_total_distance path = segment_length_sum path := by
  induction path with
  | nil => simp [calculate_total_distance, segment_length_sum]
  | cons a rest ih =>
    cases rest with
    | nil => simp [calculate_total_distance, segment_length_sum]
    | cons b rest2 =>
      simp only [calculate_total_distance, ih, segment_length_sum, List.zip_cons_cons,
        List.tail_cons, List.map_cons, List.sum_cons]

theorem one_le_num_waypoints (s e : Coordinate) : 1 ≤ num_waypoints s e :=
  le_max_left _ _

theorem interp_point_zero (s e : Coordinate) (n : ℕ) : interp_point s e n 0 = s := by
  apply Coordinate.ext_xy <;> simp [interp_point]

theorem interp_point_last (s e : Coordinate) (n : ℕ) (hn : n ≠ 0) :
    interp_point s e n n = e := by
  have h : (n : ℝ) ≠ 0 := Nat.cast_ne_zero.mpr hn
  apply Coordinate.ext_xy <;>
    · simp only [interp_point, div_self h]
      ring

/-- The simple path is exactly straight-line interpolation at
`num_waypoints` steps. -/
theorem calculate_simple_path_eq_straight_line (s e : Coordinate) :
    calculate_simple_path s e = straight_line_path s e (num_waypoints s e) := by
  obtain ⟨m, hm⟩ : ∃ m, num_waypoints s e = m + 1 :=
    ⟨num_waypoints s e - 1, (Nat.succ_pred_eq_of_pos (one_le_num_waypoints s e)).symm⟩
  have hne : num_waypoints s e ≠ 0 := by omega
  unfold straight_line_path calculate_simple_path
  rw [hm, List.range_eq_range', show m + 1 + 1 = m + 2 from rfl, List.range'_succ,
    List.range'_concat]
  simp only [List.map_cons, List.map_append, List.map_singleton, zero_add, one_mul,
    Nat.add_sub_cancel]
  rw [show (1 + m) = m + 1 from by omega, ← hm]
  rw [interp_point_zero, interp_point_last s e _ hne, hm]
  simp

/-- Consecutive interpolation points are exactly `distance s e / n` apart. -/
theorem distance_interp_succ (s e : Coordinate) (n : ℕ) (hn : 0 < n) (i : ℕ) :
    distance (interp_point s e n i) (interp_point s e n (i + 1)) = distance s e / n := by
  have hnR : (0 : ℝ) < (n : ℝ) := by exact_mod_cast hn
  calc distance (interp_point s e n i) (interp_point s e n (i + 1))
      = Real.sqrt (((e.x - s.x) / n) ^ 2 + ((e.y - s.y) / n) ^ 2) := by
        unfold distance interp_point
        congr 1
        push_cast
        field_simp
        ring
    _ = Real.sqrt (((e.x - s.x) ^ 2 + (e.y - s.y) ^ 2) / (n : ℝ) ^ 2) := by
        congr 1
        field_simp
    _ = Real.sqrt ((e.x - s.x) ^ 2 + (e.y - s.y) ^ 2) / Real.sqrt ((n : ℝ) ^ 2) :=
        Real.sqrt_div (by positivity) _
    _ = distance s e / n := by
        rw [Real.sqrt_sq (le_of_lt hnR)]
        rfl

theorem calculate_total_distance_map_range' (f : ℕ → Coordinate) :
    ∀ (n k : ℕ), calculate_total_distance ((List.range' k (n + 1)).map f)
      = ∑ i ∈ Finset.range n, distance (f (k + i)) (f (k + i + 1)) := by
  intro n
  induction n with
  | zero =>
    intro k
    simp [calculate_total_distance]
  | succ n ih =>
    intro k
    have hhead : (List.range' (k + 1) (n + 1)).map f
        = f (k + 1) :: (List.range' (k + 2) n).map f := by
      rw [List.range'_succ, List.map_cons]
    rw [List.range'_succ, List.map_cons, hhead]
    have hstep : calculate_total_distance
          (f k :: f (k + 1) :: (List.range' (k + 2) n).map f)
        = distance (f k) (f (k + 1))
          + calculate_total_distance (f (k + 1) :: (List.range' (k + 2) n).map f) := rfl
    rw [hstep, ← hhead, ih (k + 1), Finset.sum_range_succ']
    have hterms : ∀ i ∈ Finset.range n,
        distance (f (k + 1 + i)) (f (k + 1 + i + 1))
          = distance (f (k + (i + 1))) (f (k + (i + 1) + 1)) := by
      intro i _
      rw [show k + 1 + i = k + (i + 1) from by omega]
    rw [Finset.sum_congr rfl hterms]
    simp [add_comm]

theorem calculate_total_distance_straight_line (s e : Coordinate) (n : ℕ) (hn : 0 < n) :
    calculate_total_distance (straight_line_path s e n) = distance s e := by
  obtain ⟨m, rfl⟩ : ∃ m, n = m + 1 := ⟨n - 1, by omega⟩
  unfold straight_line_path
  rw [List.range_eq_range',
    calculate_total_distance_map_range' (interp_point s e (m + 1)) (m + 1) 0]
  have hterms : ∀ i ∈ Finset.range (m + 1),
      distance (interp_point s e (m + 1) (0 + i)) (interp_point s e (m + 1) (0 + i + 1))
        = distance s e / ((m + 1 : ℕ) : ℝ) := by
    intro i _
    rw [zero_add]
    exact distance_interp_succ s e (m + 1) (by omega) i
  rw [Finset.sum_congr rfl hterms, Finset.sum_const, Finset.card_range, nsmul_eq_mul]
  have hne : ((m + 1 : ℕ) : ℝ) ≠ 0 := by positivity
  rw [mul_div_cancel₀ _ hne]

theorem calculate_path_fst {O : Type} (pf : PathFinder O) (s e : Coordinate) (speed : ℝ) :
    (calculate_path pf s e speed).1 = straight_line_path s e (num_waypoints s e) :=
  calculate_simple_path_eq_straight_line s e

theorem calculate_path_distance_eq {O : Type} (pf : PathFinder O) (s e : Coordinate)
    (speed : ℝ) : (calculate_path pf s e speed).2.1 = distance s e := by
  show calculate_total_distance (calculate_simple_path s e) = distance s e
  rw [calculate_simple_path_eq_straight_line]
  exact calculate_total_distance_straight_line s e _ (one_le_num_waypoints s e)

theorem calculate_simple_path_head (s e : Coordinate) :
    (calculate_simple_path s e).head? = some s := rfl

theorem calculate_simple_path_getLast (s e : Coordinate) :
    (calculate_simple_path s e).getLast? = some e := by
  unfold calculate_simple_path
  rw [List.getLast?_concat]

theorem calculate_simple_path_ne_nil (s e : Coordinate) :
    calculate_simple_path s e ≠ [] := by
  unfold calculate_simple_path
  simp

theorem distance_self (c : Coordinate) : distance c c = 0 := by
  unfold distance
  simp

theorem num_waypoints_self (c : Coordinate) : num_waypoints c c = 1 := by
  unfold num_waypoints
  rw [distance_self]
  norm_num

theorem calculate_simple_path_self (c : Coordinate) :
    calculate_simple_path c c = [c, c] := by
  unfold calculate_simple_path
  rw [num_waypoints_self]
  simp

/-- Embedding of `PathFinder._calculate_angle_change`: headings of the incoming and outgoing
segments via `math.atan2` (embedded as `Complex.arg`), their difference in
degrees, folded into `[0, 180]` by `min(diff, 360 - diff)`. -/
noncomputable def calculate_angle_change (p1 p2 p3 : Coordinate) : ℝ :=
  let angle1 := Complex.arg ⟨p2.x - p1.x, p2.y - p1.y⟩
  let angle2 := Complex.arg ⟨p3.x - p2.x, p3.y - p2.y⟩
  let diff := |(angle2 - angle1) * (180 / Real.pi)|
  min diff (360 - diff)

/-- The predicate under which `PathFinder.smooth_path` keeps the interior
waypoint at index `i`: `angle_change > 15`. -/
noncomputable def keeps_waypoint (path : List Coordinate) (i : ℕ) : Prop :=
  15 < calculate_angle_change (path.getD (i - 1) default) (path.getD i default)
    (path.getD (i + 1) default)

open Classical in
/-- The interior indices `1 .. path.length - 2` that `smooth_path` keeps. -/
noncomputable def kept_interior (path : List Coordinate) : List ℕ :=
  (List.range' 1 (path.length - 2)).filter (fun i => decide (keeps_waypoint path i))

open Classical in
/-- Embedding of `PathFinder.smooth_path`: a path of at most two waypoints is returned
unchanged; otherwise start from `[path[0]]`, append `path[i]` for each
`i in range(1, len(path) - 1)` whose angle change exceeds 15 degrees, and
append `path[-1]`. -/
noncomputable def smooth_path (path : List Coordinate) : List Coordinate :=
  if path.length ≤ 2 then path
  else
    ((List.range' 1 (path.length - 2)).foldl
      (fun acc i => if keeps_waypoint path i then acc ++ [path.getD i default] else acc)
      [path.getD 0 default])
    ++ [path.getD (path.length - 1) default]

end PathFinder

/-- Navigation state enum (`app/models/navigation.py`, `NavigationStatus`):
members IDLE, NAVIGATING, ARRIVED, FAILED, PAUSED. -/
inductive NavigationStatus where
  | IDLE
  | NAVIGATING
  | ARRIVED
  | FAILED
  | PAUSED
deriving DecidableEq

/-- Lookup of a `NavigationStatus` by member name, the Python
`NavigationStatus[token]` access (KeyError becomes `none`). -/
def NavigationStatus.ofName : String → Option NavigationStatus
  | "IDLE" => some .IDLE
  | "NAVIGATING" => some .NAVIGATING
  | "ARRIVED" => some .ARRIVED
  | "FAILED" => some .FAILED
  | "PAUSED" => some .PAUSED
  | _ => none

/-- Lookup of a `NavigationStatus` by enum value, the Python
`NavigationStatus(token)` call (ValueError becomes `none`); the values are the
Korean strings of `app/models/navigation.py`. -/
def NavigationStatus.ofValue : String → Option NavigationStatus
  | "대기중" => some .IDLE
  | "이동중" => some .NAVIGATING
  | "도착" => some .ARRIVED
  | "실패" => some .FAILED
  | "일시정지" => some .PAUSED
  | _ => none

/-- Python's `str.upper()` over the characters of a string (embedded
structurally so that it evaluates; `Char.toUpper` maps the cased letters and
leaves everything else, Korean included, unchanged). -/
def str_upper (s : String) : String :=
  ⟨s.data.map Char.toUpper⟩

/-- The status-token normalization of the progress endpoint
(`app/api/navigation.py`, `update_navigation_progress`): try the member name
on the upper-cased token, fall back to the enum value on the original token,
and give `none` (log a warning, continue) when both fail. -/
def parse_status_token (token : String) : Option NavigationStatus :=
  match NavigationStatus.ofName (str_upper token) with
  | some st => some st
  | none => NavigationStatus.ofValue token

/-- The record `NavigationService._create_navigation_session` writes for a new
session (timestamps dropped; `path[-1]` becomes `getLast?`). -/
structure SessionData where
  navigation_id : String
  temi_id : String
  product_id : String
  status : String
  destination : Option Coordinate
  path : List Coordinate
  estimated_time : ℝ
  progress_percent : ℝ

/-- Embedding of `NavigationService._create_navigation_session`: the stored status string
is the literal `"IN_PROGRESS"` and the stored progress is `0`. -/
def create_navigation_session (navigation_id temi_id product_id : String)
    (path : List Coordinate) (estimated_time : ℝ) : SessionData :=
  { navigation_id := navigation_id
    temi_id := temi_id
    product_id := product_id
    status := "IN_PROGRESS"
    destination := path.getLast?
    path := path
    estimated_time := estimated_time
    progress_percent := 0 }

/-- The substring the status endpoint greps error text for
(`app/api/navigation.py`, `get_navigation_status`): "찾을 수 없습니다"
("cannot be found"). -/
def not_found_marker : String := "찾을 수 없습니다"

/-- The HTTP status the `get_navigation_status` endpoint answers with when the
service raises: 404 when the error message contains `not_found_marker`,
else 500. -/
def http_status_for (msg : String) : ℕ :=
  if not_found_marker.toList <:+: msg.toList then 404 else 500

/-- Modelled from the spec: `NavigationService.update_navigation_progress` is
called by the progress endpoint but is absent from the service module, so the
progress number follows spec section 4.2:
`progress_percent = clamp(0, 100, (1 - distance_remaining / total_distance) * 100)`,
defined as `100` when `total_distance = 0`. -/
noncomputable def compute_progress (distance_remaining total_distance : ℝ) : ℝ :=
  if total_distance = 0 then 100
  else min 100 (max 0 ((1 - distance_remaining / total_distance) * 100))

/-- The navigation-session state the progress estimator operates on
(spec section 3, `NavigationSession`; identifiers and timestamps dropped). -/
structure NavigationSession where
  status : NavigationStatus
  current_location : Coordinate
  destination : Coordinate
  total_distance : ℝ
  progress_percent : ℝ

/-- Modelled from the spec: `NavigationService.update_navigation_progress` is
absent from the service module (only its caller in `app/api/navigation.py`
exists).  Spec sections 4.2 and 4.3: store the new location, recompute the
progress from the straight-line remaining distance, and overwrite the status
only when a recognized one was supplied (`none` preserves the prior status). -/
noncomputable def update_navigation_progress (sess : NavigationSession)
    (loc : Coordinate) (st : Option NavigationStatus) : NavigationSession :=
  { sess with
    current_location := loc
    progress_percent :=
      compute_progress (PathFinder.distance loc sess.destination) sess.total_distance
    status := st.getD sess.status }

/-- The session of the spec's guide scenario: destination `(32, 10)`, status
NAVIGATING, total distance the straight-line distance from `(5, 5)`. -/
noncomputable def sample_session : NavigationSession :=
  { status := .NAVIGATING
    current_location := ⟨5, 5⟩
    destination := ⟨32, 10⟩
    total_distance := PathFinder.distance ⟨5, 5⟩ ⟨32, 10⟩
    progress_percent := 0 }

theorem distance_zero_four : PathFinder.distance ⟨0, 0⟩ ⟨4, 0⟩ = 4 := by
  have h : PathFinder.distance ⟨0, 0⟩ ⟨4, 0⟩ = Real.sqrt (4 ^ 2) := by
    unfold PathFinder.distance
    congr 1
    norm_num
  rw [h]
  exact Real.sqrt_sq (by norm_num)

/-- C1 counterexample: the claim "out-of-bounds inputs yield `success=false`
(with empty waypoints)" fails on the code.  `calculate_path` never consults
`is_valid_coordinate`: the out-of-bounds start `(-5, 5)` on the default
50 × 40 floor plan still yields a nonempty plan that begins at that start. -/
theorem claim1_counterexample :
    ¬ PathFinder.is_valid_coordinate default_path_finder ⟨-5, 5⟩
  ∧ (default_path_finder.calculate_path ⟨-5, 5⟩ ⟨3, 5⟩ 0.8).1 ≠ []
  ∧ (default_path_finder.calculate_path ⟨-5, 5⟩ ⟨3, 5⟩ 0.8).1.head? = some ⟨-5, 5⟩ := by
  refine ⟨?_, ?_, ?_⟩
  · norm_num [PathFinder.is_valid_coordinate, default_path_finder]
  · exact PathFinder.calculate_simple_path_ne_nil _ _
  · exact PathFinder.calculate_simple_path_head _ _

/-- C1 amended: `calculate_path` performs no bounds check: even when the start
or the end lies outside `[0, width] × [0, height]`, the returned waypoint list
is nonempty and runs from start to end, so the `success=false` / empty-
waypoints failure is never produced. -/
theorem claim1_amended {O : Type} (pf : PathFinder O) (s e : Coordinate) (speed : ℝ)
    (_h : ¬ pf.is_valid_coordinate s ∨ ¬ pf.is_valid_coordinate e) :
    (pf.calculate_path s e speed).1 ≠ []
  ∧ (pf.calculate_path s e speed).1.head? = some s
  ∧ (pf.calculate_path s e speed).1.getLast? = some e :=
  ⟨PathFinder.calculate_simple_path_ne_nil s e, PathFinder.calculate_simple_path_head s e,
    PathFinder.calculate_simple_path_getLast s e⟩

/-- C1 witness: the amended claim at the out-of-bounds start `(-5, 5)`. -/
theorem claim1_witness :
    (default_path_finder.calculate_path ⟨-5, 5⟩ ⟨3, 5⟩ 0.8).1 ≠ []
  ∧ (default_path_finder.calculate_path ⟨-5, 5⟩ ⟨3, 5⟩ 0.8).1.head? = some ⟨-5, 5⟩
  ∧ (default_path_finder.calculate_path ⟨-5, 5⟩ ⟨3, 5⟩ 0.8).1.getLast? = some ⟨3, 5⟩ :=
  claim1_amended default_path_finder ⟨-5, 5⟩ ⟨3, 5⟩ 0.8
    (Or.inl (by norm_num [PathFinder.is_valid_coordinate, default_path_finder]))

/-- C2: for in-bounds start and end, the returned waypoint list has the start
as its first element and the end as its last element. -/
theorem claim2_endpoints {O : Type} (pf : PathFinder O) (s e : Coordinate) (speed : ℝ)
    (_hs : pf.is_valid_coordinate s) (_he : pf.is_valid_coordinate e) :
    (pf.calculate_path s e speed).1.head? = some s
  ∧ (pf.calculate_path s e speed).1.getLast? = some e :=
  ⟨PathFinder.calculate_simple_path_head s e, PathFinder.calculate_simple_path_getLast s e⟩

/-- C2 witness: the spec's scenario pair `(5, 5)` to `(32, 10)` on the default
50 × 40 floor plan. -/
theorem claim2_witness :
    (default_path_finder.calculate_path ⟨5, 5⟩ ⟨32, 10⟩ 0.8).1.head? = some ⟨5, 5⟩
  ∧ (default_path_finder.calculate_path ⟨5, 5⟩ ⟨32, 10⟩ 0.8).1.getLast? = some ⟨32, 10⟩ :=
  claim2_endpoints default_path_finder ⟨5, 5⟩ ⟨32, 10⟩ 0.8
    (by norm_num [PathFinder.is_valid_coordinate, default_path_finder])
    (by norm_num [PathFinder.is_valid_coordinate, default_path_finder])

/-- C3 counterexample: at `speed = 0` the code returns `estimated_time = 0`,
not `total_distance / default_speed` as the claim's clamping clause demands
(here `4 / 0.8 = 5 ≠ 0`). -/
theorem claim3_counterexample :
    (default_path_finder.calculate_path ⟨0, 0⟩ ⟨4, 0⟩ 0).2.2 = 0
  ∧ (default_path_finder.calculate_path ⟨0, 0⟩ ⟨4, 0⟩ 0).2.1 / default_temi_speed = 5
  ∧ (default_path_finder.calculate_path ⟨0, 0⟩ ⟨4, 0⟩ 0).2.2
      ≠ (default_path_finder.calculate_path ⟨0, 0⟩ ⟨4, 0⟩ 0).2.1 / default_temi_speed := by
  have htime : (default_path_finder.calculate_path ⟨0, 0⟩ ⟨4, 0⟩ 0).2.2 = 0 := by
    simp [PathFinder.calculate_path]
  have hdist : (default_path_finder.calculate_path ⟨0, 0⟩ ⟨4, 0⟩ 0).2.1 / default_temi_speed
      = 5 := by
    rw [PathFinder.calculate_path_distance_eq, distance_zero_four]
    norm_num [default_temi_speed]
  refine ⟨htime, hdist, ?_⟩
  rw [htime, hdist]
  norm_num

/-- C3 amended: `total_distance` is the sum of the Euclidean lengths of
consecutive waypoints of the returned path, and `estimated_time` is
`total_distance / speed` for positive speed; for `speed ≤ 0` the code returns
an estimated time of `0` rather than falling back to the default speed. -/
theorem claim3_amended {O : Type} (pf : PathFinder O) (s e : Coordinate) (speed : ℝ) :
    (pf.calculate_path s e speed).2.1 = segment_length_sum (pf.calculate_path s e speed).1
  ∧ (0 < speed →
      (pf.calculate_path s e speed).2.2 = (pf.calculate_path s e speed).2.1 / speed)
  ∧ (speed ≤ 0 → (pf.calculate_path s e speed).2.2 = 0) := by
  refine ⟨PathFinder.calculate_total_distance_eq_segment_sum _, ?_, ?_⟩
  · intro h
    show (if 0 < speed
        then PathFinder.calculate_total_distance (PathFinder.calculate_simple_path s e) / speed
        else 0)
      = PathFinder.calculate_total_distance (PathFinder.calculate_simple_path s e) / speed
    rw [if_pos h]
  · intro h
    show (if 0 < speed
        then PathFinder.calculate_total_distance (PathFinder.calculate_simple_path s e) / speed
        else 0)
      = 0
    rw [if_neg (not_lt.mpr h)]

/-- C3 witness: the amended claim evaluated on the segment `(0,0)` to `(4,0)`
at speed `2`: the estimated time is the total distance divided by `2`. -/
theorem claim3_witness :
    (default_path_finder.calculate_path ⟨0, 0⟩ ⟨4, 0⟩ 2).2.2
      = (default_path_finder.calculate_path ⟨0, 0⟩ ⟨4, 0⟩ 2).2.1 / 2 :=
  (claim3_amended default_path_finder ⟨0, 0⟩ ⟨4, 0⟩ 2).2.1 (by norm_num)

/-- C4 counterexample: planning from a coordinate to itself returns the
two-element list `[c, c]`, not the single-waypoint list the claim states. -/
theorem claim4_counterexample :
    (default_path_finder.calculate_path ⟨1, 1⟩ ⟨1, 1⟩ 0.8).1.length = 2
  ∧ (default_path_finder.calculate_path ⟨1, 1⟩ ⟨1, 1⟩ 0.8).1.length ≠ 1 := by
  have h : (default_path_finder.calculate_path ⟨1, 1⟩ ⟨1, 1⟩ 0.8).1 = [⟨1, 1⟩, ⟨1, 1⟩] :=
    PathFinder.calculate_simple_path_self _
  rw [h]
  norm_num

/-- C4 amended: planning from `c` to `c` returns the degenerate two-waypoint
path `[c, c]` (both equal to `c`) with total distance `0` and estimated time
`0`; the plan is returned as a normal success, never as the empty-waypoints
failure. -/
theorem claim4_amended {O : Type} (pf : PathFinder O) (c : Coordinate) (speed : ℝ) :
    (pf.calculate_path c c speed).1 = [c, c]
  ∧ (pf.calculate_path c c speed).2.1 = 0
  ∧ (pf.calculate_path c c speed).2.2 = 0 := by
  have hd : (pf.calculate_path c c speed).2.1 = 0 := by
    rw [PathFinder.calculate_path_distance_eq]
    exact PathFinder.distance_self c
  refine ⟨PathFinder.calculate_simple_path_self c, hd, ?_⟩
  show (if 0 < speed
      then PathFinder.calculate_total_distance (PathFinder.calculate_simple_path c c) / speed
      else 0)
    = 0
  have hd2 : PathFinder.calculate_total_distance (PathFinder.calculate_simple_path c c) = 0 :=
    hd
  rw [hd2]
  split <;> simp

/-- C6: the progress number of every progress update is the spec's clamp
formula applied to the straight-line remaining distance, is `100` for a
zero-length route, always lies in `[0, 100]`, and clamps to `0` whenever the
remaining distance is at least the total distance (a location beyond the
destination). -/
theorem claim6_progress_bounds (sess : NavigationSession) (loc : Coordinate)
    (st : Option NavigationStatus) :
    (update_navigation_progress sess loc st).progress_percent
      = compute_progress (PathFinder.distance loc sess.destination) sess.total_distance
  ∧ (∀ dr td : ℝ, 0 ≤ compute_progress dr td ∧ compute_progress dr td ≤ 100)
  ∧ (∀ dr : ℝ, compute_progress dr 0 = 100)
  ∧ (∀ dr td : ℝ, 0 < td → td ≤ dr → compute_progress dr td = 0) := by
  refine ⟨rfl, ?_, ?_, ?_⟩
  · intro dr td
    unfold compute_progress
    split
    · norm_num
    · exact ⟨le_min (by norm_num) (le_max_left _ _), min_le_left _ _⟩
  · intro dr
    unfold compute_progress
    rw [if_pos rfl]
  · intro dr td h1 h2
    unfold compute_progress
    rw [if_neg (ne_of_gt h1)]
    have hdiv : 1 ≤ dr / td := (one_le_div h1).mpr h2
    have hle : (1 - dr / td) * 100 ≤ 0 := by nlinarith
    rw [max_eq_left hle, min_eq_right (by norm_num)]

/-- C7 (code bug): the record `_create_navigation_session` stores the
literal status string `"IN_PROGRESS"`, which is not the claimed `NAVIGATING`
and is recognized by neither the member-name nor the enum-value lookup of the
code's own `NavigationStatus` enum. -/
theorem claim7_bug (navigation_id temi_id product_id : String) (path : List Coordinate)
    (estimated_time : ℝ) :
    (create_navigation_session navigation_id temi_id product_id path estimated_time).status
      = "IN_PROGRESS"
  ∧ NavigationStatus.ofName "IN_PROGRESS" = none
  ∧ NavigationStatus.ofValue "IN_PROGRESS" = none
  ∧ (create_navigation_session navigation_id temi_id product_id path estimated_time).status
      ≠ "NAVIGATING" := by
  refine ⟨rfl, by decide, by decide, ?_⟩
  show "IN_PROGRESS" ≠ "NAVIGATING"
  decide

/-- C8: a progress report whose status token is recognized by neither lookup
parses to `none`, and the update then preserves the prior status while still
storing the new location and the recomputed progress. -/
theorem claim8_invalid_token (sess : NavigationSession) (loc : Coordinate) (token : String)
    (h : parse_status_token token = none) :
    (update_navigation_progress sess loc (parse_status_token token)).status = sess.status
  ∧ (update_navigation_progress sess loc (parse_status_token token)).current_location = loc
  ∧ (update_navigation_progress sess loc (parse_status_token token)).progress_percent
      = compute_progress (PathFinder.distance loc sess.destination) sess.total_distance := by
  rw [h]
  exact ⟨rfl, rfl, rfl⟩

/-- C8 witness: the spec's scenario — the token `"bogus"` on a NAVIGATING
session bound for `(32, 10)`, reporting location `(20, 10)`. -/
theorem claim8_witness :
    (update_navigation_progress sample_session ⟨20, 10⟩ (parse_status_token "bogus")).status
      = sample_session.status
  ∧ (update_navigation_progress sample_session ⟨20, 10⟩
      (parse_status_token "bogus")).current_location = ⟨20, 10⟩
  ∧ (update_navigation_progress sample_session ⟨20, 10⟩
      (parse_status_token "bogus")).progress_percent
      = compute_progress (PathFinder.distance ⟨20, 10⟩ sample_session.destination)
          sample_session.total_distance :=
  claim8_invalid_token sample_session ⟨20, 10⟩ "bogus" (by decide)

/-- C9 (code bug): the not-found branch of `get_navigation_status` references
the member `CANCELLED`, which the `NavigationStatus` enum does not have, so
the branch raises an attribute error carrying the member name instead of
returning the "찾을 수 없습니다" message; the endpoint's error mapping sends
that message to HTTP 500, not to the client-error 404 the claim states. -/
theorem claim9_bug :
    NavigationStatus.ofName "CANCELLED" = none
  ∧ NavigationStatus.ofValue "CANCELLED" = none
  ∧ http_status_for "CANCELLED" = 500
  ∧ http_status_for "CANCELLED" ≠ 404
  ∧ http_status_for ("네비게이션 세션을 " ++ not_found_marker) = 404 := by
  refine ⟨by decide, by decide, by decide, by decide, by decide⟩

namespace PathFinder

open Classical in
theorem foldl_keep_eq_filter (path : List Coordinate) :
    ∀ (l : List ℕ) (acc : List Coordinate),
      l.foldl (fun acc i =>
          if keeps_waypoint path i then acc ++ [path.getD i default] else acc) acc
        = acc ++ (l.filter (fun i => decide (keeps_waypoint path i))).map
            (fun i => path.getD i default) := by
  intro l
  induction l with
  | nil =>
    intro acc
    simp
  | cons a t ih =>
    intro acc
    by_cases h : keeps_waypoint path a
    · rw [List.foldl_cons, if_pos h, ih]
      simp [List.filter_cons, h]
    · rw [List.foldl_cons, if_neg h, ih]
      simp [List.filter_cons, h]

theorem smooth_path_eq_of_long (path : List Coordinate) (h : 2 < path.length) :
    smooth_path path
      = path.getD 0 default
          :: (kept_interior path).map (fun i => path.getD i default)
          ++ [path.getD (path.length - 1) default] := by
  unfold smooth_path
  rw [if_neg (by omega), foldl_keep_eq_filter]
  rfl

theorem smooth_path_head (path : List Coordinate) :
    (smooth_path path).head? = path.head? := by
  by_cases h : path.length ≤ 2
  · unfold smooth_path
    rw [if_pos h]
  · push_neg at h
    rw [smooth_path_eq_of_long path h]
    cases path with
    | nil => simp at h
    | cons a t => simp

theorem smooth_path_getLast (path : List Coordinate) :
    (smooth_path path).getLast? = path.getLast? := by
  by_cases h : path.length ≤ 2
  · unfold smooth_path
    rw [if_pos h]
  · push_neg at h
    rw [smooth_path_eq_of_long path h, List.getLast?_concat, List.getLast?_eq_getElem?]
    have hlen : path.length - 1 < path.length := by omega
    rw [List.getD_eq_getElem?_getD, List.getElem?_eq_getElem hlen]
    rfl

theorem smooth_path_length_le (path : List Coordinate) :
    (smooth_path path).length ≤ path.length := by
  by_cases h : path.length ≤ 2
  · unfold smooth_path
    rw [if_pos h]
  · push_neg at h
    rw [smooth_path_eq_of_long path h]
    have h1 : (kept_interior path).length ≤ path.length - 2 := by
      unfold kept_interior
      refine le_trans (List.length_filter_le _ _) ?_
      simp
    simp only [List.length_append, List.length_cons, List.length_map, List.length_nil]
    omega

open Classical in
theorem kept_interior_mem (path : List Coordinate) (i : ℕ) :
    i ∈ kept_interior path ↔
      i ∈ List.range' 1 (path.length - 2) ∧ keeps_waypoint path i := by
  unfold kept_interior
  rw [List.mem_filter]
  simp

end PathFinder

/-- C5: smoothing keeps the first and the last waypoint, never lengthens the
path, and for a path of more than two waypoints it is exactly the first
waypoint, then those interior waypoints whose turn angle exceeds 15 degrees
(in their original order), then the last waypoint. -/
theorem claim5_smoothing (path : List Coordinate) :
    (PathFinder.smooth_path path).head? = path.head?
  ∧ (PathFinder.smooth_path path).getLast? = path.getLast?
  ∧ (PathFinder.smooth_path path).length ≤ path.length
  ∧ (2 < path.length →
      PathFinder.smooth_path path
        = path.getD 0 default
            :: (PathFinder.kept_interior path).map (fun i => path.getD i default)
            ++ [path.getD (path.length - 1) default])
  ∧ (∀ i, i ∈ PathFinder.kept_interior path ↔
      (i ∈ List.range' 1 (path.length - 2)
        ∧ 15 < PathFinder.calculate_angle_change (path.getD (i - 1) default)
            (path.getD i default) (path.getD (i + 1) default))) :=
  ⟨PathFinder.smooth_path_head path, PathFinder.smooth_path_getLast path,
    PathFinder.smooth_path_length_le path,
    fun h => PathFinder.smooth_path_eq_of_long path h,
    fun i => PathFinder.kept_interior_mem path i⟩

/-- C10: the planner is extensionally straight-line interpolation: the result
never depends on the stored obstacle list (or floor-plan size), the waypoint
list is the evenly spaced interpolation of the segment from start to end,
every waypoint lies on that segment, consecutive waypoints are exactly
`distance / num_waypoints` apart (one interval per started 2 meters), and the
returned total distance is the Euclidean distance from start to end. -/
theorem claim10_refinement {O O' : Type} (pf : PathFinder O) (pf2 : PathFinder O')
    (s e : Coordinate) (speed : ℝ) :
    pf.calculate_path s e speed = pf2.calculate_path s e speed
  ∧ (pf.calculate_path s e speed).1 = straight_line_path s e (PathFinder.num_waypoints s e)
  ∧ (pf.calculate_path s e speed).2.1 = PathFinder.distance s e
  ∧ (∀ p ∈ (pf.calculate_path s e speed).1, ∃ t : ℝ, 0 ≤ t ∧ t ≤ 1
      ∧ p.x = s.x + (e.x - s.x) * t ∧ p.y = s.y + (e.y - s.y) * t)
  ∧ (∀ i, i < PathFinder.num_waypoints s e →
      PathFinder.distance (PathFinder.interp_point s e (PathFinder.num_waypoints s e) i)
          (PathFinder.interp_point s e (PathFinder.num_waypoints s e) (i + 1))
        = PathFinder.distance s e / (PathFinder.num_waypoints s e : ℝ)) := by
  refine ⟨rfl, PathFinder.calculate_path_fst pf s e speed,
    PathFinder.calculate_path_distance_eq pf s e speed, ?_, ?_⟩
  · intro p hp
    rw [PathFinder.calculate_path_fst] at hp
    unfold straight_line_path at hp
    rw [List.mem_map] at hp
    obtain ⟨i, hi, rfl⟩ := hp
    rw [List.mem_range] at hi
    have hn : 0 < PathFinder.num_waypoints s e := PathFinder.one_le_num_waypoints s e
    have hnR : (0 : ℝ) < (PathFinder.num_waypoints s e : ℝ) := by exact_mod_cast hn
    refine ⟨(i : ℝ) / (PathFinder.num_waypoints s e : ℝ), by positivity, ?_, rfl, rfl⟩
    rw [div_le_one hnR]
    exact_mod_cast Nat.lt_succ_iff.mp hi
  · intro i _
    exact PathFinder.distance_interp_succ s e _ (PathFinder.one_le_num_waypoints s e) i
